import Mathlib

/-!
Shallow embedding of the risk-scoring engine of `src/streamlit_app.py`
(Radar RH).  Python floats are modelled as exact rationals (`ℚ`), Python
ints as `ℤ`, Python `None` as `Option.none`.  Fallible operations
(string-to-number coercion, dictionary lookup) return `Option`.
-/

set_option autoImplicit false

namespace RadarRH

/-- The scoring configuration dictionary `SCORING_CONFIG` of the source,
field for field.  Float literals such as `0.35` are the exact rationals
they denote. -/
structure ScoringConfig where
  peso_tempo_casa : ℚ
  peso_pdi : ℚ
  peso_treinamentos : ℚ
  peso_linkedin : ℚ
  peso_ausencias : ℚ
  tempo_casa_critico : ℚ
  tempo_casa_risco : ℚ
  tempo_casa_estavel : ℚ
  treinamentos_minimo : ℤ
  ausencias_critico : ℤ
  risco_baixo : ℚ
  risco_medio : ℚ
  risco_alto : ℚ
  deriving Repr

/-- The module-level `SCORING_CONFIG` value of the source. -/
def SCORING_CONFIG : ScoringConfig where
  peso_tempo_casa := 35 / 100
  peso_pdi := 15 / 100
  peso_treinamentos := 15 / 100
  peso_linkedin := 25 / 100
  peso_ausencias := 10 / 100
  tempo_casa_critico := 25 / 100
  tempo_casa_risco := 1
  tempo_casa_estavel := 2
  treinamentos_minimo := 1
  ausencias_critico := 8
  risco_baixo := 25
  risco_medio := 55
  risco_alto := 100

/-- The optional LinkedIn-signal dictionary attached to an employee:
the three boolean flags produced by `processar_pdf_linkedin`. -/
structure LinkedinData where
  ativo_recentemente : Bool
  mudancas_frequentes : Bool
  certificacoes_recentes : Bool
  deriving Repr, DecidableEq

/-- The `Employee` dataclass of the source.  `linkedin_data = none`
models the Python default `None`. -/
structure Employee where
  nome : String
  departamento : String
  cargo : String
  tempo_casa : ℚ
  participou_pdi : Bool
  num_treinamentos : ℤ
  num_ausencias : ℤ
  linkedin_data : Option LinkedinData := none
  score_risco : ℚ := 0
  fatores_risco : List String := []
  acoes_recomendadas : List String := []
  deriving Repr, DecidableEq

/-- Python `int(q)` on a float: truncation toward zero. -/
def pyTrunc (q : ℚ) : ℤ := if q < 0 then ⌈q⌉ else ⌊q⌋

/-- Block 1 of `calcular_score_risco`: the tenure ("tempo de casa")
contribution, a tiered step function of tenure. -/
def scoreTempo (tempo_casa : ℚ) : ℚ :=
  if tempo_casa < SCORING_CONFIG.tempo_casa_critico then
    60 * SCORING_CONFIG.peso_tempo_casa
  else if tempo_casa < SCORING_CONFIG.tempo_casa_risco then
    max (40 - tempo_casa * 20) 10 * SCORING_CONFIG.peso_tempo_casa
  else if tempo_casa < SCORING_CONFIG.tempo_casa_estavel then
    15 * SCORING_CONFIG.peso_tempo_casa
  else 0

/-- Block 2 of `calcular_score_risco`: the PDI contribution, contextual
on tenure, zero when the employee participated. -/
def scorePdi (participou_pdi : Bool) (tempo_casa : ℚ) : ℚ :=
  if participou_pdi then 0
  else if tempo_casa < 1 / 2 then 10 * SCORING_CONFIG.peso_pdi
  else if tempo_casa < 1 then 30 * SCORING_CONFIG.peso_pdi
  else 60 * SCORING_CONFIG.peso_pdi

/-- The expected number of trainings, `max(1, int(tempo_casa * 2))`. -/
def treinamentosEsperados (tempo_casa : ℚ) : ℤ :=
  max 1 (pyTrunc (tempo_casa * 2))

/-- Block 3 of `calcular_score_risco`: the training contribution,
driven by the deficit against the tenure-scaled expectation. -/
def scoreTrein (tempo_casa : ℚ) (num_treinamentos : ℤ) : ℚ :=
  let deficit : ℤ := max 0 (treinamentosEsperados tempo_casa - num_treinamentos)
  if tempo_casa < 1 / 2 then
    if num_treinamentos = 0 then 20 * SCORING_CONFIG.peso_treinamentos else 0
  else
    ((min (deficit * 20) 50 : ℤ) : ℚ) * SCORING_CONFIG.peso_treinamentos

/-- Block 4 of `calcular_score_risco`: the absence contribution,
proportional to the excess over `ausencias_critico`, capped at 60. -/
def scoreAus (num_ausencias : ℤ) : ℚ :=
  if num_ausencias > SCORING_CONFIG.ausencias_critico then
    ((min ((num_ausencias - SCORING_CONFIG.ausencias_critico) * 10) 60 : ℤ) : ℚ)
      * SCORING_CONFIG.peso_ausencias
  else 0

/-- Block 5 of `calcular_score_risco`: the LinkedIn contribution,
taken only when a `linkedin_data` dictionary is attached. -/
def scoreLinkedin (linkedin_data : Option LinkedinData) : ℚ :=
  match linkedin_data with
  | none => 0
  | some d =>
      (if d.ativo_recentemente then 50 * SCORING_CONFIG.peso_linkedin else 0)
        + (if d.mudancas_frequentes then 30 * SCORING_CONFIG.peso_linkedin else 0)

/-- `calcular_score_risco`: the five accumulated contributions, clamped
above by 100 (`min(score, 100)`). -/
def calcular_score_risco (employee : Employee) : ℚ :=
  min (scoreTempo employee.tempo_casa
        + scorePdi employee.participou_pdi employee.tempo_casa
        + scoreTrein employee.tempo_casa employee.num_treinamentos
        + scoreAus employee.num_ausencias
        + scoreLinkedin employee.linkedin_data) 100

/-- `get_risk_level`: tier classification of a score. -/
def get_risk_level (score : ℚ) : String :=
  if score ≤ SCORING_CONFIG.risco_baixo then "Baixo"
  else if score ≤ SCORING_CONFIG.risco_medio then "Médio"
  else "Alto"

/-- Does the character list `p` start the character list `s`?  Used to
model Python substring containment. -/
def startsWithCs : List Char → List Char → Bool
  | [], _ => true
  | _ :: _, [] => false
  | p :: ps, c :: cs => p == c && startsWithCs ps cs

/-- Does the character list `p` occur contiguously inside `s`? -/
def hasSubstrCs (p : List Char) : List Char → Bool
  | [] => startsWithCs p []
  | c :: cs => startsWithCs p (c :: cs) || hasSubstrCs p cs

/-- Python `pat in s` on strings: contiguous substring containment. -/
def strContains (s pat : String) : Bool := hasSubstrCs pat.data s.data

/-- Python `s.lower()`.  All uppercase characters appearing in the
engine's factor strings are ASCII, where `Char.toLower` agrees with
Python. -/
def pyLower (s : String) : String := ⟨s.data.map Char.toLower⟩

/-- Whitespace stripped from both ends of a character list. -/
def stripCs (cs : List Char) : List Char :=
  ((cs.dropWhile Char.isWhitespace).reverse.dropWhile Char.isWhitespace).reverse

/-- Python `s.strip()`. -/
def pyStrip (s : String) : String := ⟨stripCs s.data⟩

/-- `.str.replace(' ', '_')`: the pattern is the single space
character, so the replacement is a per-character map. -/
def replaceSpaceUnderscore (s : String) : String :=
  ⟨s.data.map (fun c => if c = ' ' then '_' else c)⟩

/-- `identificar_fatores_risco`: the ordered list of human-readable
risk factors.  Each sequential `fatores.append` block of the source is
one list chunk; the final block appends the stable-profile marker when
the list is still empty and the stability conditions hold. -/
def identificar_fatores_risco (employee : Employee) : List String :=
  let tempo_casa := employee.tempo_casa
  let f1 : List String :=
    if tempo_casa < SCORING_CONFIG.tempo_casa_critico then
      ["Colaborador muito novo (< 3 meses) - período crítico de adaptação"]
    else if tempo_casa < SCORING_CONFIG.tempo_casa_risco then
      ["Colaborador em período de risco (< 1 ano)"]
    else if tempo_casa < SCORING_CONFIG.tempo_casa_estavel then
      ["Colaborador em processo de estabilização (1-2 anos)"]
    else []
  let f2 : List String :=
    if !employee.participou_pdi then
      if tempo_casa < 1 / 2 then
        ["PDI não realizado (normal para colaborador muito novo)"]
      else if tempo_casa < 1 then
        ["PDI não realizado (recomendado após 6 meses)"]
      else
        ["PDI não realizado (crítico para colaborador experiente)"]
    else []
  let treinamentos_esperados := treinamentosEsperados tempo_casa
  let f3 : List String :=
    if employee.num_treinamentos < treinamentos_esperados then
      if tempo_casa < 1 / 2 then
        (if employee.num_treinamentos = 0 then
          ["Nenhum treinamento realizado (considerar treinamento de integração)"]
        else [])
      else
        ["Déficit de treinamentos: " ++ toString employee.num_treinamentos
          ++ " realizados de " ++ toString treinamentos_esperados ++ " esperados"]
    else []
  let f4 : List String :=
    if employee.num_ausencias > SCORING_CONFIG.ausencias_critico then
      ["Ausências excessivas (" ++ toString employee.num_ausencias
        ++ " faltas - acima do limite de "
        ++ toString SCORING_CONFIG.ausencias_critico ++ ")"]
    else if employee.num_ausencias > 3 then
      ["Ausências moderadas (" ++ toString employee.num_ausencias
        ++ " faltas - monitorar)"]
    else []
  let f5 : List String :=
    match employee.linkedin_data with
    | none => []
    | some d =>
        (if d.ativo_recentemente then
          ["Perfil LinkedIn com atividade recente (possível busca ativa)"] else [])
        ++ (if d.mudancas_frequentes then
          ["Histórico de mudanças frequentes de empresa no LinkedIn"] else [])
        ++ (if d.certificacoes_recentes then
          ["Certificações/cursos recentes no LinkedIn (desenvolvimento próprio)"] else [])
  let fatores := f1 ++ f2 ++ f3 ++ f4 ++ f5
  if fatores.isEmpty then
    if tempo_casa ≥ 2 ∧ employee.participou_pdi ∧ employee.num_ausencias ≤ 3 then
      ["Perfil estável - baixo risco de saída"]
    else []
  else fatores

/-- `gerar_recomendacoes`: category-keyed action suggestions, with the
maintenance fallback when no category matched.  The `employee` argument
is unused by the source body, as in the source. -/
def gerar_recomendacoes (fatores_risco : List String) (_employee : Employee) :
    List String :=
  let r1 : List String :=
    if fatores_risco.any (fun fator => strContains (pyLower fator) "tempo de casa") then
      ["Implementar programa de mentoria para novos colaboradores",
       "Agendar check-ins regulares com gestor direto"]
    else []
  let r2 : List String :=
    if fatores_risco.any (fun fator => strContains (pyLower fator) "pdi") then
      ["Agendar reunião de PDI e definir metas de carreira",
       "Criar plano de desenvolvimento individual"]
    else []
  let r3 : List String :=
    if fatores_risco.any (fun fator => strContains (pyLower fator) "treinamentos") then
      ["Oferecer trilha de desenvolvimento personalizada",
       "Inscrever em cursos relevantes para o cargo"]
    else []
  let r4 : List String :=
    if fatores_risco.any (fun fator => strContains (pyLower fator) "ausências") then
      ["Realizar conversa individual para entender causas",
       "Avaliar necessidade de suporte adicional"]
    else []
  let r5 : List String :=
    if fatores_risco.any (fun fator => strContains (pyLower fator) "linkedin") then
      ["Conduzir pesquisa de satisfação confidencial",
       "Agendar 1:1 para discussão de carreira"]
    else []
  let recomendacoes := r1 ++ r2 ++ r3 ++ r4 ++ r5
  if recomendacoes.isEmpty then
    ["Manter acompanhamento regular", "Reconhecer bom desempenho"]
  else recomendacoes

/-- A call of `gerar_recomendacoes` with a possibly-`None` first
argument, as Python semantics would execute it: iterating a `None`
value in the generator expressions raises `TypeError`, modelled as
`Except.error`; a genuine list is processed by the function body. -/
def gerar_recomendacoesPy (fatores_risco : Option (List String))
    (employee : Employee) : Except String (List String) :=
  match fatores_risco with
  | none => Except.error "TypeError: argument of type NoneType is not iterable"
  | some fs => Except.ok (gerar_recomendacoes fs employee)

/-- A scalar cell of the input table: the Python value kinds the
engine's coercions distinguish. -/
inductive Cell where
  | pyStr (s : String)
  | pyFloat (q : ℚ)
  | pyInt (n : ℤ)
  | pyBool (b : Bool)
  deriving Repr, DecidableEq

/-- Python `str(cell)`.  (The textual form of a float is approximated
by the rational's `toString`; no claim depends on it.) -/
def pyStrOf : Cell → String
  | .pyStr s => s
  | .pyFloat q => toString q
  | .pyInt n => toString n
  | .pyBool b => if b then "True" else "False"

/-- A run of decimal digits as a natural number; `none` when the run is
empty or contains a non-digit. -/
def parseDigits (cs : List Char) : Option ℕ :=
  if cs.isEmpty then none
  else if cs.all Char.isDigit then
    some (cs.foldl (fun a c => a * 10 + (c.toNat - 48)) 0)
  else none

/-- Split a character list at the first dot, when there is one. -/
def splitAtDot : List Char → Option (List Char × List Char)
  | [] => none
  | c :: cs =>
      if c = '.' then some ([], cs)
      else (splitAtDot cs).map (fun p => (c :: p.1, p.2))

/-- Python `float(s)` on a decimal literal: optional sign, digits with
at most one dot, surrounding whitespace ignored; `none` (ValueError)
otherwise.  Exotic literals (`inf`, `nan`, exponents) are not modelled. -/
def parsePyFloat (s : String) : Option ℚ :=
  let cs := stripCs s.data
  let (sign, body) : ℚ × List Char :=
    match cs with
    | '-' :: r => (-1, r)
    | '+' :: r => (1, r)
    | r => (1, r)
  match splitAtDot body with
  | none => (parseDigits body).map (fun n => sign * n)
  | some (ip, fp) =>
      if ip.isEmpty then
        (parseDigits fp).map (fun f => sign * ((f : ℚ) / 10 ^ fp.length))
      else if fp.isEmpty then
        (parseDigits ip).map (fun n => sign * n)
      else
        match parseDigits ip, parseDigits fp with
        | some n, some f => some (sign * ((n : ℚ) + (f : ℚ) / 10 ^ fp.length))
        | _, _ => none

/-- Python `int(s)` on a string: optional sign and digits only
(`int("3.5")` raises, hence `none`). -/
def parsePyIntStr (s : String) : Option ℤ :=
  let cs := stripCs s.data
  match cs with
  | '-' :: r => (parseDigits r).map (fun n => -(n : ℤ))
  | '+' :: r => (parseDigits r).map (fun n => (n : ℤ))
  | r => (parseDigits r).map (fun n => (n : ℤ))

/-- Python `float(cell)`; `none` models the raised `ValueError` /
`TypeError`. -/
def pyFloatOf : Cell → Option ℚ
  | .pyFloat q => some q
  | .pyInt n => some (n : ℚ)
  | .pyBool b => some (if b then 1 else 0)
  | .pyStr s => parsePyFloat s

/-- Python `int(cell)`; floats truncate toward zero, strings must be
integer literals. -/
def pyIntOf : Cell → Option ℤ
  | .pyInt n => some n
  | .pyFloat q => some (pyTrunc q)
  | .pyBool b => some (if b then 1 else 0)
  | .pyStr s => parsePyIntStr s

/-- The input table: pandas column labels plus positional rows. -/
structure DataFrame where
  cols : List String
  rows : List (List Cell)

/-- `df.columns.str.lower().str.strip().str.replace(' ', '_')` applied
to one label. -/
def normalizeCol (c : String) : String :=
  replaceSpaceUnderscore (pyStrip (pyLower c))

/-- The `required_columns` list of `processar_planilha`. -/
def required_columns : List String :=
  ["nome", "departamento", "cargo", "tempo_casa", "participou_pdi",
   "num_treinamentos", "num_ausencias"]

/-- `[col for col in required_columns if col not in df.columns]` after
the in-place column normalization. -/
def missingColumns (df : DataFrame) : List String :=
  required_columns.filter (fun c => !(df.cols.map normalizeCol).contains c)

/-- `row[c]` on a positional row keyed by the (already normalized)
column labels; `none` models a KeyError. -/
def getCell (cols : List String) (row : List Cell) (c : String) : Option Cell :=
  (cols.indexOf? c).bind (fun i => row.get? i)

/-- `str(row['participou_pdi']).lower() in ['sim', 'yes', 'true', '1']`. -/
def parsePdi (cell : Cell) : Bool :=
  (["sim", "yes", "true", "1"] : List String).contains (pyLower (pyStrOf cell))

/-- The `Employee(...)` construction of one row inside the `try` block
of `processar_planilha`; `none` models any exception raised by a field
lookup or coercion. -/
def buildEmployee (cols : List String) (row : List Cell) : Option Employee := do
  let nomeC ← getCell cols row "nome"
  let depC ← getCell cols row "departamento"
  let cargoC ← getCell cols row "cargo"
  let tempoC ← getCell cols row "tempo_casa"
  let tempo ← pyFloatOf tempoC
  let pdiC ← getCell cols row "participou_pdi"
  let trC ← getCell cols row "num_treinamentos"
  let tr ← pyIntOf trC
  let auC ← getCell cols row "num_ausencias"
  let au ← pyIntOf auC
  some
    { nome := pyStrip (pyStrOf nomeC)
      departamento := pyStrip (pyStrOf depC)
      cargo := pyStrip (pyStrOf cargoC)
      tempo_casa := tempo
      participou_pdi := parsePdi pdiC
      num_treinamentos := tr
      num_ausencias := au }

/-- The three derived-field assignments that follow a successful
`Employee(...)` construction. -/
def enrichEmployee (employee : Employee) : Employee :=
  let e1 := { employee with score_risco := calcular_score_risco employee }
  let fat := identificar_fatores_risco e1
  let e2 := { e1 with fatores_risco := fat }
  { e2 with acoes_recomendadas := gerar_recomendacoes fat e2 }

/-- The `st.warning` text emitted for a failed row (the trailing
exception text `str(e)` is elided). -/
def rowErrorMsg (cols : List String) (row : List Cell) : String :=
  "Erro ao processar colaborador "
    ++ (match getCell cols row "nome" with
        | some c => pyStrOf c
        | none => "desconhecido")

/-- The per-row loop of `processar_planilha`: successful rows become
enriched employees, failed rows become warning entries; the loop never
aborts. -/
def processRows (cols : List String) : List (List Cell) →
    List Employee × List String
  | [] => ([], [])
  | r :: rs =>
      let rest := processRows cols rs
      match buildEmployee cols r with
      | some emp => (enrichEmployee emp :: rest.1, rest.2)
      | none => (rest.1, rowErrorMsg cols r :: rest.2)

/-- The outcome of `processar_planilha`: the returned employee list
plus the `st.error` / `st.warning` messages emitted along the way. -/
structure ProcessResult where
  employees : List Employee
  errors : List String
  deriving Repr

/-- `processar_planilha`: normalize column labels, fail the whole batch
on missing required columns, otherwise process the rows one by one. -/
def processar_planilha (df : DataFrame) : ProcessResult :=
  let cols := df.cols.map normalizeCol
  let missing := missingColumns df
  if missing.isEmpty then
    let p := processRows cols df.rows
    ⟨p.1, p.2⟩
  else
    ⟨[], ["Colunas obrigatórias ausentes: " ++ String.intercalate ", " missing]⟩

/-- The effective "recently active" flag of an optional LinkedIn
bundle: `linkedin_data.get("ativo_recentemente", False)` guarded by the
truthiness test on the bundle. -/
def ldAtivo : Option LinkedinData → Bool
  | none => false
  | some d => d.ativo_recentemente

/-- The effective "frequent changes" flag of an optional LinkedIn
bundle. -/
def ldMudancas : Option LinkedinData → Bool
  | none => false
  | some d => d.mudancas_frequentes

/-- The effective "recent certifications" flag of an optional LinkedIn
bundle. -/
def ldCert : Option LinkedinData → Bool
  | none => false
  | some d => d.certificacoes_recentes

/-- Concrete record for exercising the score bounds. -/
def exC1 : Employee :=
  { nome := "Ana", departamento := "TI", cargo := "Dev", tempo_casa := 3 / 2,
    participou_pdi := false, num_treinamentos := 1, num_ausencias := 12 }

/-- Concrete record for exercising absence monotonicity. -/
def exC3 : Employee :=
  { nome := "Bruno", departamento := "RH", cargo := "Analista", tempo_casa := 1,
    participou_pdi := true, num_treinamentos := 2, num_ausencias := 0 }

/-- Tenure-monotonicity counterexample record at tenure 2. -/
def exC4a : Employee :=
  { nome := "Carla", departamento := "TI", cargo := "Dev", tempo_casa := 2,
    participou_pdi := true, num_treinamentos := 3, num_ausencias := 0 }

/-- The same record with tenure moved to 5 years. -/
def exC4b : Employee := { exC4a with tempo_casa := 5 }

/-- Record for the amended tenure-monotonicity witness. -/
def exC4w : Employee :=
  { nome := "Davi", departamento := "TI", cargo := "Dev", tempo_casa := 2,
    participou_pdi := false, num_treinamentos := 6, num_ausencias := 4 }

/-- The spec's worked example: 7 years of tenure, no PDI, zero
trainings, 50 absences. -/
def exC5 : Employee :=
  { nome := "Elisa", departamento := "Vendas", cargo := "Gerente", tempo_casa := 7,
    participou_pdi := false, num_treinamentos := 0, num_ausencias := 50 }

/-- A stable record: long tenure, PDI done, ample trainings, no
absences, no LinkedIn bundle. -/
def exC6 : Employee :=
  { nome := "Fabio", departamento := "TI", cargo := "Dev", tempo_casa := 3,
    participou_pdi := true, num_treinamentos := 10, num_ausencias := 0 }

/-- Two records that agree on all six score-relevant inputs and differ
in name, department, job title and the recent-certifications flag. -/
def exC10a : Employee :=
  { nome := "Gina", departamento := "TI", cargo := "Dev", tempo_casa := 3 / 4,
    participou_pdi := false, num_treinamentos := 1, num_ausencias := 10,
    linkedin_data := some ⟨true, false, false⟩ }

/-- See `exC10a`. -/
def exC10b : Employee :=
  { nome := "Helena", departamento := "RH", cargo := "Analista", tempo_casa := 3 / 4,
    participou_pdi := false, num_treinamentos := 1, num_ausencias := 10,
    linkedin_data := some ⟨true, false, true⟩ }

/-- A table missing every required column except `nome`. -/
def dfC8 : DataFrame := ⟨["Nome "], []⟩

/-- A row with a non-numeric tenure value, aligned with
`required_columns`. -/
def rowC9 : List Cell :=
  [.pyStr "Ivo Souza", .pyStr "TI", .pyStr "Dev", .pyStr "abc",
   .pyStr "sim", .pyInt 2, .pyInt 1]

/-- A one-row table whose single row fails tenure coercion. -/
def dfC9 : DataFrame := ⟨required_columns, [rowC9]⟩

end RadarRH

namespace RadarRH

theorem scoreTempo_nonneg (t : ℚ) : 0 ≤ scoreTempo t := by
  unfold scoreTempo
  have h10 : (10 : ℚ) ≤ max (40 - t * 20) 10 := le_max_right _ _
  split
  · norm_num [SCORING_CONFIG]
  · split
    · have hw : SCORING_CONFIG.peso_tempo_casa = 35 / 100 := rfl
      rw [hw]; nlinarith
    · split
      · norm_num [SCORING_CONFIG]
      · exact le_rfl

theorem scorePdi_nonneg (p : Bool) (t : ℚ) : 0 ≤ scorePdi p t := by
  unfold scorePdi
  split
  · exact le_rfl
  · split
    · norm_num [SCORING_CONFIG]
    · split <;> norm_num [SCORING_CONFIG]

theorem scoreTrein_nonneg (t : ℚ) (n : ℤ) : 0 ≤ scoreTrein t n := by
  simp only [scoreTrein]
  split
  · split <;> norm_num [SCORING_CONFIG]
  · have hd : (0 : ℤ) ≤ max 0 (treinamentosEsperados t - n) := le_max_left _ _
    have h1 : (0 : ℤ) ≤ min (max 0 (treinamentosEsperados t - n) * 20) 50 :=
      le_min (by nlinarith) (by norm_num)
    have h2 : (0 : ℚ) ≤ ((min (max 0 (treinamentosEsperados t - n) * 20) 50 : ℤ) : ℚ) := by
      exact_mod_cast h1
    have h3 : (0 : ℚ) ≤ SCORING_CONFIG.peso_treinamentos := by norm_num [SCORING_CONFIG]
    exact mul_nonneg h2 h3

theorem scoreAus_nonneg (a : ℤ) : 0 ≤ scoreAus a := by
  unfold scoreAus
  split
  · rename_i h
    have h1 : (0 : ℤ) ≤ min ((a - SCORING_CONFIG.ausencias_critico) * 10) 60 :=
      le_min (by nlinarith) (by norm_num)
    have h2 : (0 : ℚ) ≤ ((min ((a - SCORING_CONFIG.ausencias_critico) * 10) 60 : ℤ) : ℚ) := by
      exact_mod_cast h1
    exact mul_nonneg h2 (by norm_num [SCORING_CONFIG])
  · exact le_rfl

theorem scoreLinkedin_nonneg (ld : Option LinkedinData) : 0 ≤ scoreLinkedin ld := by
  cases ld with
  | none => exact le_rfl
  | some d =>
      have h1 : (0 : ℚ) ≤ if d.ativo_recentemente then 50 * SCORING_CONFIG.peso_linkedin else 0 := by
        split <;> norm_num [SCORING_CONFIG]
      have h2 : (0 : ℚ) ≤ if d.mudancas_frequentes then 30 * SCORING_CONFIG.peso_linkedin else 0 := by
        split <;> norm_num [SCORING_CONFIG]
      simpa [scoreLinkedin] using add_nonneg h1 h2

/-- Claim C1: on every record with non-negative tenure, training count
and absence count (with or without a LinkedIn bundle), the score
computed by `calcular_score_risco` satisfies `0 ≤ score ≤ 100`; the
function is total by construction. -/
theorem score_bounded_0_100 (e : Employee) (ht : 0 ≤ e.tempo_casa)
    (htr : 0 ≤ e.num_treinamentos) (ha : 0 ≤ e.num_ausencias) :
    0 ≤ calcular_score_risco e ∧ calcular_score_risco e ≤ 100 := by
  constructor
  · unfold calcular_score_risco
    have h1 := scoreTempo_nonneg e.tempo_casa
    have h2 := scorePdi_nonneg e.participou_pdi e.tempo_casa
    have h3 := scoreTrein_nonneg e.tempo_casa e.num_treinamentos
    have h4 := scoreAus_nonneg e.num_ausencias
    have h5 := scoreLinkedin_nonneg e.linkedin_data
    exact le_min (by linarith) (by norm_num)
  · exact min_le_right _ _

/-- Witness for C1 at the concrete record `exC1`. -/
theorem score_bounded_0_100_witness :
    0 ≤ calcular_score_risco exC1 ∧ calcular_score_risco exC1 ≤ 100 :=
  score_bounded_0_100 exC1 (by norm_num [exC1]) (by norm_num [exC1])
    (by norm_num [exC1])

/-- Claim C2: `get_risk_level` is total and partitions the line into
three contiguous non-overlapping tiers, with boundary scores falling in
the lower tier: `score ≤ risco_baixo → Baixo`,
`risco_baixo < score ≤ risco_medio → Médio`, `score > risco_medio →
Alto`. -/
theorem risk_level_three_tiers (s : ℚ) :
    (s ≤ SCORING_CONFIG.risco_baixo → get_risk_level s = "Baixo") ∧
    (SCORING_CONFIG.risco_baixo < s → s ≤ SCORING_CONFIG.risco_medio →
      get_risk_level s = "Médio") ∧
    (SCORING_CONFIG.risco_medio < s → get_risk_level s = "Alto") := by
  refine ⟨fun h => ?_, fun h1 h2 => ?_, fun h => ?_⟩
  · unfold get_risk_level
    rw [if_pos h]
  · unfold get_risk_level
    rw [if_neg (not_le.mpr h1), if_pos h2]
  · have hlow : SCORING_CONFIG.risco_baixo < s := by
      have : SCORING_CONFIG.risco_baixo < SCORING_CONFIG.risco_medio := by
        norm_num [SCORING_CONFIG]
      linarith
    unfold get_risk_level
    rw [if_neg (not_le.mpr hlow), if_neg (not_le.mpr h)]

/-- Witness for C2 at the two boundaries and above. -/
theorem risk_level_three_tiers_witness :
    get_risk_level 25 = "Baixo" ∧ get_risk_level 55 = "Médio" ∧
      get_risk_level 56 = "Alto" :=
  ⟨(risk_level_three_tiers 25).1 (by norm_num [SCORING_CONFIG]),
   (risk_level_three_tiers 55).2.1 (by norm_num [SCORING_CONFIG])
     (by norm_num [SCORING_CONFIG]),
   (risk_level_three_tiers 56).2.2 (by norm_num [SCORING_CONFIG])⟩

theorem scoreAus_mono {a b : ℤ} (hab : a ≤ b) : scoreAus a ≤ scoreAus b := by
  by_cases h : SCORING_CONFIG.ausencias_critico < a
  · have hb : SCORING_CONFIG.ausencias_critico < b := lt_of_lt_of_le h hab
    unfold scoreAus
    rw [if_pos h, if_pos hb]
    have h1 : min ((a - SCORING_CONFIG.ausencias_critico) * 10) 60
        ≤ min ((b - SCORING_CONFIG.ausencias_critico) * 10) 60 :=
      min_le_min (by nlinarith) le_rfl
    have h2 : ((min ((a - SCORING_CONFIG.ausencias_critico) * 10) 60 : ℤ) : ℚ)
        ≤ ((min ((b - SCORING_CONFIG.ausencias_critico) * 10) 60 : ℤ) : ℚ) := by
      exact_mod_cast h1
    exact mul_le_mul_of_nonneg_right h2 (by norm_num [SCORING_CONFIG])
  · have h0 : scoreAus a = 0 := by unfold scoreAus; rw [if_neg h]
    rw [h0]
    exact scoreAus_nonneg b

/-- Claim C3: holding every other field fixed, the score is monotone
non-decreasing in the absence count. -/
theorem score_mono_ausencias (e : Employee) (a b : ℤ) (hab : a ≤ b) :
    calcular_score_risco { e with num_ausencias := a }
      ≤ calcular_score_risco { e with num_ausencias := b } := by
  unfold calcular_score_risco
  dsimp only
  have := scoreAus_mono hab
  exact min_le_min (by linarith) le_rfl

/-- Witness for C3 at the concrete record `exC3` with 1 ≤ 10 absences. -/
theorem score_mono_ausencias_witness :
    calcular_score_risco { exC3 with num_ausencias := 1 }
      ≤ calcular_score_risco { exC3 with num_ausencias := 10 } :=
  score_mono_ausencias exC3 1 10 (by norm_num)

theorem scoreTempo_stable {t : ℚ} (h : 2 ≤ t) : scoreTempo t = 0 := by
  unfold scoreTempo
  have h1 : ¬ t < SCORING_CONFIG.tempo_casa_critico :=
    not_lt.mpr (le_trans (by norm_num [SCORING_CONFIG]) h)
  have h2 : ¬ t < SCORING_CONFIG.tempo_casa_risco :=
    not_lt.mpr (le_trans (by norm_num [SCORING_CONFIG]) h)
  have h3 : ¬ t < SCORING_CONFIG.tempo_casa_estavel :=
    not_lt.mpr (le_trans (by norm_num [SCORING_CONFIG]) h)
  rw [if_neg h1, if_neg h2, if_neg h3]

theorem scorePdi_stable_eq (p : Bool) {t1 t2 : ℚ} (h1 : 1 ≤ t1) (h2 : 1 ≤ t2) :
    scorePdi p t1 = scorePdi p t2 := by
  by_cases hp : p = true
  · simp [scorePdi, hp]
  · have hhalf : (2 : ℚ)⁻¹ ≤ 1 := by norm_num
    have n1 : ¬ t1 < (2 : ℚ)⁻¹ := not_lt.mpr (by linarith)
    have n2 : ¬ t2 < (2 : ℚ)⁻¹ := not_lt.mpr (by linarith)
    simp [scorePdi, hp, n1, n2, not_lt.mpr h1, not_lt.mpr h2]

theorem treinamentosEsperados_mono {t1 t2 : ℚ} (h0 : 0 ≤ t1) (h12 : t1 ≤ t2) :
    treinamentosEsperados t1 ≤ treinamentosEsperados t2 := by
  unfold treinamentosEsperados pyTrunc
  have n1 : ¬ t1 * 2 < 0 := not_lt.mpr (by nlinarith)
  have n2 : ¬ t2 * 2 < 0 := not_lt.mpr (by nlinarith)
  rw [if_neg n1, if_neg n2]
  exact max_le_max le_rfl (Int.floor_le_floor (by nlinarith))

theorem scoreTrein_covered {t : ℚ} {n : ℤ} (h : 1 / 2 ≤ t)
    (hn : treinamentosEsperados t ≤ n) : scoreTrein t n = 0 := by
  simp only [scoreTrein]
  rw [if_neg (not_lt.mpr h)]
  have hd : max 0 (treinamentosEsperados t - n) = 0 := max_eq_left (by linarith)
  rw [hd, zero_mul, min_eq_left (by norm_num : (0 : ℤ) ≤ 50)]
  norm_num

/-- Counterexample to claim C4 as stated: with every other field held
fixed, moving tenure from 2 to 5 years strictly increases the score
(the training-deficit term grows with tenure), so the score is not
monotone non-increasing in tenure beyond the 2-year threshold. -/
theorem score_tenure_monotone_cex :
    (2 : ℚ) ≤ exC4a.tempo_casa ∧ exC4a.tempo_casa ≤ exC4b.tempo_casa ∧
      ¬ calcular_score_risco exC4b ≤ calcular_score_risco exC4a := by
  have ha : calcular_score_risco exC4a = 3 := by
    norm_num [calcular_score_risco, scoreTempo, scorePdi, scoreTrein, scoreAus,
      scoreLinkedin, SCORING_CONFIG, treinamentosEsperados, pyTrunc, exC4a]
  have hb : calcular_score_risco exC4b = 15 / 2 := by
    norm_num [calcular_score_risco, scoreTempo, scorePdi, scoreTrein, scoreAus,
      scoreLinkedin, SCORING_CONFIG, treinamentosEsperados, pyTrunc, exC4b, exC4a]
  refine ⟨by norm_num [exC4a], by norm_num [exC4b, exC4a], ?_⟩
  rw [ha, hb]
  norm_num

/-- Claim C4 as amended: beyond the 2-year stability threshold the
score is non-increasing in tenure provided the record's training count
covers the expected trainings at the larger tenure (the code's
training-deficit term otherwise grows with tenure). -/
theorem score_tenure_monotone_amended (e : Employee) (t1 t2 : ℚ)
    (h1 : 2 ≤ t1) (h12 : t1 ≤ t2)
    (htr : treinamentosEsperados t2 ≤ e.num_treinamentos) :
    calcular_score_risco { e with tempo_casa := t2 }
      ≤ calcular_score_risco { e with tempo_casa := t1 } := by
  have h2 : (2 : ℚ) ≤ t2 := le_trans h1 h12
  have htr1 : treinamentosEsperados t1 ≤ e.num_treinamentos :=
    le_trans (treinamentosEsperados_mono (by linarith) h12) htr
  unfold calcular_score_risco
  dsimp only
  rw [scoreTempo_stable h1, scoreTempo_stable h2,
    scoreTrein_covered (by linarith) htr1, scoreTrein_covered (by linarith) htr,
    scorePdi_stable_eq e.participou_pdi (by linarith : (1 : ℚ) ≤ t2)
      (by linarith : (1 : ℚ) ≤ t1)]

/-- Witness for the amended C4 at `exC4w`, tenures 2 ≤ 3, six
trainings on record. -/
theorem score_tenure_monotone_amended_witness :
    calcular_score_risco { exC4w with tempo_casa := 3 }
      ≤ calcular_score_risco { exC4w with tempo_casa := 2 } :=
  score_tenure_monotone_amended exC4w 2 3 (by norm_num) (by norm_num)
    (by norm_num [treinamentosEsperados, pyTrunc, exC4w])

/-- Counterexample to claim C5 as stated: the record with tenure 7.0,
no PDI, 0 trainings and 50 absences does not score 100 and is not
classified "Alto" by the code's configuration. -/
theorem example_score_cex :
    calcular_score_risco exC5 ≠ 100 ∧
      get_risk_level (calcular_score_risco exC5) ≠ "Alto" := by
  have hs : calcular_score_risco exC5 = 45 / 2 := by
    norm_num [calcular_score_risco, scoreTempo, scorePdi, scoreTrein, scoreAus,
      scoreLinkedin, SCORING_CONFIG, treinamentosEsperados, pyTrunc, exC5]
  rw [hs]
  refine ⟨by norm_num, ?_⟩
  unfold get_risk_level
  rw [if_pos (by norm_num [SCORING_CONFIG])]
  decide

/-- Claim C5 as amended: that record scores 22.5 (PDI 9, training 7.5,
absence 6; the code has no flat extreme-absence or combination
bonuses), far below the clamp, and the classifier assigns "Baixo". -/
theorem example_score_amended :
    calcular_score_risco exC5 = 45 / 2 ∧
      get_risk_level (calcular_score_risco exC5) = "Baixo" := by
  have hs : calcular_score_risco exC5 = 45 / 2 := by
    norm_num [calcular_score_risco, scoreTempo, scorePdi, scoreTrein, scoreAus,
      scoreLinkedin, SCORING_CONFIG, treinamentosEsperados, pyTrunc, exC5]
  refine ⟨hs, ?_⟩
  rw [hs]
  unfold get_risk_level
  rw [if_pos (by norm_num [SCORING_CONFIG])]

/-- Counterexample to claim C6 as stated: the record `exC6` exhibits no
condition at or above any reporting threshold (long tenure, PDI done,
ample trainings, no absences, no bundle), yet the factor list returned
is not empty — the function appends a stable-profile marker instead. -/
theorem fatores_empty_cex : identificar_fatores_risco exC6 ≠ [] := by
  have h : identificar_fatores_risco exC6 = ["Perfil estável - baixo risco de saída"] := by
    norm_num [identificar_fatores_risco, SCORING_CONFIG, treinamentosEsperados,
      pyTrunc, exC6]
  rw [h]
  simp

/-- Claim C6 as amended: on every record with no condition at or above
any reporting threshold, `identificar_fatores_risco` returns (without
erroring) the singleton stable-profile marker, never the empty list. -/
theorem fatores_stable_singleton (e : Employee)
    (ht : 2 ≤ e.tempo_casa) (hp : e.participou_pdi = true)
    (htr : treinamentosEsperados e.tempo_casa ≤ e.num_treinamentos)
    (ha : e.num_ausencias ≤ 3)
    (hla : ldAtivo e.linkedin_data = false)
    (hlm : ldMudancas e.linkedin_data = false)
    (hlc : ldCert e.linkedin_data = false) :
    identificar_fatores_risco e = ["Perfil estável - baixo risco de saída"] := by
  have h1 : ¬ e.tempo_casa < SCORING_CONFIG.tempo_casa_critico :=
    not_lt.mpr (le_trans (by norm_num [SCORING_CONFIG]) ht)
  have h2 : ¬ e.tempo_casa < SCORING_CONFIG.tempo_casa_risco :=
    not_lt.mpr (le_trans (by norm_num [SCORING_CONFIG]) ht)
  have h3 : ¬ e.tempo_casa < SCORING_CONFIG.tempo_casa_estavel :=
    not_lt.mpr (le_trans (by norm_num [SCORING_CONFIG]) ht)
  have hhalf : (2 : ℚ)⁻¹ ≤ 1 := by norm_num
  have h4 : ¬ e.tempo_casa < (2 : ℚ)⁻¹ := not_lt.mpr (by linarith)
  have h5 : ¬ e.num_treinamentos < treinamentosEsperados e.tempo_casa :=
    not_lt.mpr htr
  have h6 : ¬ e.num_ausencias > SCORING_CONFIG.ausencias_critico :=
    not_lt.mpr (le_trans ha (by norm_num [SCORING_CONFIG]))
  have h7 : ¬ e.num_ausencias > 3 := not_lt.mpr ha
  cases hld : e.linkedin_data with
  | none =>
      simp [identificar_fatores_risco, hld, h1, h2, h3, h4, h5, h6, h7, hp, ht, ha]
  | some d =>
      rw [hld] at hla hlm hlc
      simp only [ldAtivo] at hla
      simp only [ldMudancas] at hlm
      simp only [ldCert] at hlc
      simp [identificar_fatores_risco, hld, h1, h2, h3, h4, h5, h6, h7, hp, ht,
        ha, hla, hlm, hlc]

/-- Witness for the amended C6 at the stable record `exC6`. -/
theorem fatores_stable_singleton_witness :
    identificar_fatores_risco exC6 = ["Perfil estável - baixo risco de saída"] :=
  fatores_stable_singleton exC6 (by norm_num [exC6]) rfl
    (by norm_num [treinamentosEsperados, pyTrunc, exC6]) (by norm_num [exC6])
    rfl rfl rfl

theorem ite_isEmpty_ne {α : Type} (r f : List α) (hf : f ≠ []) :
    (if r.isEmpty then f else r) ≠ [] := by
  split
  · exact hf
  · rename_i h
    intro hc
    rw [hc] at h
    simp at h

/-- Counterexample to claim C7 as stated: a call with a `None` factors
value does not return a list — Python iteration of `None` inside the
`any(...)` generator raises `TypeError`. -/
theorem recomendacoes_none_cex :
    gerar_recomendacoesPy none exC3
      = Except.error "TypeError: argument of type NoneType is not iterable" := rfl

/-- Claim C7 as amended: on every genuine factors list, including the
empty list, `gerar_recomendacoes` returns a non-empty list without
raising, and when no factor matches any category it returns exactly the
maintenance-monitoring fallback pair. -/
theorem recomendacoes_nonempty (fatores : List String) (e : Employee) :
    gerar_recomendacoes fatores e ≠ [] ∧
      gerar_recomendacoes [] e
        = ["Manter acompanhamento regular", "Reconhecer bom desempenho"] := by
  refine ⟨?_, rfl⟩
  simp only [gerar_recomendacoes]
  exact ite_isEmpty_ne _ _ (by simp)

/-- Claim C8: a table missing at least one required column yields zero
employee records and the single batch-level error naming all missing
fields; no per-row processing occurs. -/
theorem processar_missing_columns (df : DataFrame)
    (h : missingColumns df ≠ []) :
    (processar_planilha df).employees = [] ∧
      (processar_planilha df).errors
        = ["Colunas obrigatórias ausentes: "
            ++ String.intercalate ", " (missingColumns df)] := by
  have hne : (missingColumns df).isEmpty = false := by
    cases hm : missingColumns df with
    | nil => exact absurd hm h
    | cons a l => rfl
  simp only [processar_planilha]
  rw [if_neg (by simp [hne])]
  exact ⟨rfl, rfl⟩

/-- Witness for C8 at the one-column table `dfC8`. -/
theorem processar_missing_columns_witness :
    (processar_planilha dfC8).employees = [] ∧
      (processar_planilha dfC8).errors
        = ["Colunas obrigatórias ausentes: "
            ++ String.intercalate ", " (missingColumns dfC8)] :=
  processar_missing_columns dfC8 (by decide)

theorem processRows_eq (cols : List String) (rows : List (List Cell)) :
    processRows cols rows
      = (rows.filterMap (fun r => (buildEmployee cols r).map enrichEmployee),
         rows.filterMap (fun r =>
           match buildEmployee cols r with
           | some _ => none
           | none => some (rowErrorMsg cols r))) := by
  induction rows with
  | nil => rfl
  | cons r rs ih =>
      simp only [processRows, ih, List.filterMap_cons]
      cases hb : buildEmployee cols r <;> simp [hb]

theorem filterMap_length_all_isSome {α β : Type} (f : α → Option β)
    (l : List α) (h : ∀ a ∈ l, (f a).isSome) :
    (l.filterMap f).length = l.length := by
  induction l with
  | nil => rfl
  | cons a l ih =>
      obtain ⟨b, hb⟩ := Option.isSome_iff_exists.mp (h a (List.mem_cons_self a l))
      rw [List.filterMap_cons, hb]
      simp only [List.length_cons]
      rw [ih (fun x hx => h x (List.mem_cons_of_mem a hx))]

/-- Claim C9: with all required columns present, a batch in which
exactly one row fails coercion yields all the other rows as scored
records and exactly one error entry referencing the bad row; the batch
never aborts. -/
theorem processar_row_isolation (cols : List String)
    (pre post : List (List Cell)) (bad : List Cell)
    (hmiss : missingColumns ⟨cols, pre ++ bad :: post⟩ = [])
    (hpre : ∀ r ∈ pre, (buildEmployee (cols.map normalizeCol) r).isSome)
    (hbad : buildEmployee (cols.map normalizeCol) bad = none)
    (hpost : ∀ r ∈ post, (buildEmployee (cols.map normalizeCol) r).isSome) :
    (processar_planilha ⟨cols, pre ++ bad :: post⟩).employees.length
        = pre.length + post.length
      ∧ (processar_planilha ⟨cols, pre ++ bad :: post⟩).errors
        = [rowErrorMsg (cols.map normalizeCol) bad] := by
  simp only [processar_planilha]
  rw [if_pos (by simp [hmiss])]
  dsimp only
  rw [processRows_eq]
  constructor
  · dsimp only
    rw [List.filterMap_append, List.filterMap_cons, hbad]
    simp only [Option.map_none', List.length_append]
    rw [filterMap_length_all_isSome _ pre
        (fun a ha => by
          cases hb : buildEmployee (cols.map normalizeCol) a with
          | none => exact absurd (hpre a ha) (by simp [hb])
          | some b => simp [hb]),
      filterMap_length_all_isSome _ post
        (fun a ha => by
          cases hb : buildEmployee (cols.map normalizeCol) a with
          | none => exact absurd (hpost a ha) (by simp [hb])
          | some b => simp [hb])]
  · dsimp only
    rw [List.filterMap_append, List.filterMap_cons, hbad]
    have e1 : pre.filterMap (fun r =>
        match buildEmployee (cols.map normalizeCol) r with
        | some _ => none
        | none => some (rowErrorMsg (cols.map normalizeCol) r)) = [] := by
      rw [List.filterMap_eq_nil_iff]
      intro a ha
      obtain ⟨b, hb⟩ := Option.isSome_iff_exists.mp (hpre a ha)
      simp [hb]
    have e2 : post.filterMap (fun r =>
        match buildEmployee (cols.map normalizeCol) r with
        | some _ => none
        | none => some (rowErrorMsg (cols.map normalizeCol) r)) = [] := by
      rw [List.filterMap_eq_nil_iff]
      intro a ha
      obtain ⟨b, hb⟩ := Option.isSome_iff_exists.mp (hpost a ha)
      simp [hb]
    rw [e1, e2]
    simp

/-- Witness for C9: the one-row batch whose row has a non-numeric
tenure value. -/
theorem processar_row_isolation_witness :
    (processar_planilha ⟨required_columns, [] ++ rowC9 :: []⟩).employees.length
        = List.length ([] : List (List Cell)) + List.length ([] : List (List Cell))
      ∧ (processar_planilha ⟨required_columns, [] ++ rowC9 :: []⟩).errors
        = [rowErrorMsg (required_columns.map normalizeCol) rowC9] :=
  processar_row_isolation required_columns [] [] rowC9 (by decide)
    (by simp) (by decide) (by simp)

theorem scoreLinkedin_eq_flags (ld : Option LinkedinData) :
    scoreLinkedin ld
      = (if ldAtivo ld then 50 * SCORING_CONFIG.peso_linkedin else 0)
        + (if ldMudancas ld then 30 * SCORING_CONFIG.peso_linkedin else 0) := by
  cases ld <;> simp [scoreLinkedin, ldAtivo, ldMudancas]

/-- Claim C10: the score depends only on tenure, PDI participation,
training count, absence count and the recently-active and
frequent-changes flags; name, department, job title and the
recent-certifications flag never affect it. -/
theorem score_noninterference (e1 e2 : Employee)
    (h1 : e1.tempo_casa = e2.tempo_casa)
    (h2 : e1.participou_pdi = e2.participou_pdi)
    (h3 : e1.num_treinamentos = e2.num_treinamentos)
    (h4 : e1.num_ausencias = e2.num_ausencias)
    (h5 : ldAtivo e1.linkedin_data = ldAtivo e2.linkedin_data)
    (h6 : ldMudancas e1.linkedin_data = ldMudancas e2.linkedin_data) :
    calcular_score_risco e1 = calcular_score_risco e2 := by
  unfold calcular_score_risco
  rw [h1, h2, h3, h4, scoreLinkedin_eq_flags, scoreLinkedin_eq_flags, h5, h6]

/-- Witness for C10: two records differing in name, department, job
title and the certifications flag score identically. -/
theorem score_noninterference_witness :
    calcular_score_risco exC10a = calcular_score_risco exC10b :=
  score_noninterference exC10a exC10b rfl rfl rfl rfl rfl rfl

end RadarRH
